import Mathlib

/-!
# Verification of the `console-subscriber` aggregator

A shallow embedding of `src/console-subscriber/src/aggregator.rs` (the
`Aggregator` state machine, its `PollStats`/`TaskStats` accounting and the
`IdData` dirty-bit tables), together with theorems settling the claims about
its specification.

Modelling conventions:
* `SystemTime` is a `Nat` of nanoseconds since an arbitrary epoch; `Duration`
  is a `Nat` of nanoseconds.  `SystemTime::duration_since` returns `Err` when
  the argument is later than the receiver, embedded as `Option Nat`.
* `u64` counters are `Nat`s; the one place where u64 overflow semantics
  matters (the unchecked `current_polls -= 1`) is modelled by wrapping
  subtraction mod `2^64`.
* A Rust panic (an `unwrap` that fails) is embedded as `Option.none` bubbling
  out of the affected state transition.
* `span::Id`, metadata references, resource kinds and field tokens are opaque
  `Nat` identifiers; `HashMap` is an association list.
* The poll-time HDR histogram is embedded as the list of values passed to
  `Histogram::record` (the histogram is created auto-resizing over the full
  u64 range, so `record` itself never fails).
* Channel / RPC side effects (`watchers`, the `Watch::update` sends, the
  `details_watchers` compaction) are I/O and are outside the embedded state;
  `publish` returns the constructed `InstrumentUpdate` next to the post
  state, and `cleanup_closed` receives `now` and `has_watchers` as inputs.
* The `Event::StateUpdate` handler (typed resource-attribute arithmetic) is
  not needed by any claim and is not embedded; `ResourceStats.attributes`
  is carried as opaque data.
-/

namespace ConsoleSubscriber

/-- `u64::MAX`. -/
def U64_MAX : Nat := 2 ^ 64 - 1

/-- `later.duration_since(earlier)`: `Ok(later - earlier)` when
`earlier <= later`, `Err` (here `none`) otherwise. -/
def durationSince (later earlier : Nat) : Option Nat :=
  if earlier ≤ later then some (later - earlier) else none

/-- `later.duration_since(earlier).unwrap_or_default()` as used by
`IdData::drop_closed`: a failed subtraction is treated as the zero duration. -/
def durationSinceOrZero (later earlier : Nat) : Nat :=
  (durationSince later earlier).getD 0

/-- Wrapping `n - 1` on `u64`, the semantics of the unchecked
`self.current_polls -= 1` in `PollStats::update_on_span_exit`. -/
def u64SubOne (n : Nat) : Nat :=
  (n + U64_MAX) % 2 ^ 64

/-- `since_last_poll.as_nanos().try_into().unwrap_or(u64::MAX)`: the u128
nanosecond count converted to u64 with saturation. -/
def recordedValue (d : Nat) : Nat :=
  if d ≤ U64_MAX then d else U64_MAX

/-- `struct PollStats` from aggregator.rs. -/
structure PollStats where
  current_polls : Nat
  polls : Nat
  first_poll : Option Nat
  last_poll_started : Option Nat
  last_poll_ended : Option Nat
  busy_time : Nat
  deriving Repr, DecidableEq

/-- `impl Default for PollStats`. -/
def PollStats.default : PollStats :=
  { current_polls := 0
    polls := 0
    first_poll := none
    last_poll_started := none
    last_poll_ended := none
    busy_time := 0 }

/-- `PollStats::update_on_span_enter`. -/
def PollStats.update_on_span_enter (s : PollStats) (timestamp : Nat) : PollStats :=
  let s1 :=
    if s.current_polls = 0 then
      { s with
        last_poll_started := some timestamp
        first_poll := if s.first_poll = none then some timestamp else s.first_poll
        polls := s.polls + 1 }
    else s
  { s1 with current_polls := s1.current_polls + 1 }

/-- `PollStats::update_on_span_exit`.  The decrement is the unchecked u64
subtraction; `timestamp.duration_since(last_poll_started).unwrap()` panics
(`none`) when the clock went backwards. -/
def PollStats.update_on_span_exit (s : PollStats) (timestamp : Nat) : Option PollStats :=
  let cp := u64SubOne s.current_polls
  if cp = 0 then
    match s.last_poll_started with
    | some lps =>
      match durationSince timestamp lps with
      | some elapsed =>
        some { s with
          current_polls := cp
          last_poll_ended := some timestamp
          busy_time := s.busy_time + elapsed }
      | none => none
    | none => some { s with current_polls := cp }
  else
    some { s with current_polls := cp }

/-- `PollStats::since_last_poll`.  The outer `Option` is the possible panic of
the inner `unwrap`; the inner `Option` is the Rust return value. -/
def PollStats.since_last_poll (s : PollStats) (timestamp : Nat) : Option (Option Nat) :=
  match s.last_poll_started with
  | none => some none
  | some lps =>
    match durationSince timestamp lps with
    | some d => some (some d)
    | none => none

/-- `struct TaskStats` from aggregator.rs, with the histogram embedded as the
list of recorded sample values. -/
structure TaskStats where
  created_at : Option Nat
  closed_at : Option Nat
  wakes : Nat
  waker_clones : Nat
  waker_drops : Nat
  last_wake : Option Nat
  poll_times_histogram : List Nat
  poll_stats : PollStats
  deriving Repr, DecidableEq

/-- `impl Default for TaskStats`. -/
def TaskStats.default : TaskStats :=
  { created_at := none
    closed_at := none
    wakes := 0
    waker_clones := 0
    waker_drops := 0
    last_wake := none
    poll_times_histogram := []
    poll_stats := PollStats.default }

/-- `enum WakeOp` (from the event schema used by the `Event::Waker` arm). -/
inductive WakeOp where
  | Wake
  | WakeByRef
  | Clone
  | Drop
  deriving Repr, DecidableEq

/-- The `match op` body of the `Event::Waker` arm of
`Aggregator::update_state`, applied to one task's stats. -/
def applyWakeOp (ts : TaskStats) (op : WakeOp) (t : Nat) : TaskStats :=
  match op with
  | WakeOp.Wake =>
    { ts with
      wakes := ts.wakes + 1
      last_wake := some t
      waker_drops := ts.waker_drops + 1 }
  | WakeOp.WakeByRef =>
    { ts with wakes := ts.wakes + 1, last_wake := some t }
  | WakeOp.Clone =>
    { ts with waker_clones := ts.waker_clones + 1 }
  | WakeOp.Drop =>
    { ts with waker_drops := ts.waker_drops + 1 }

/-- The body of the `task_stats` closure of the `Event::Exit` arm of
`Aggregator::update_state`: run `update_on_span_exit`, then, if
`since_last_poll` is `Some`, record the saturated nanosecond count into the
poll-time histogram. -/
def taskStatsOnExit (ts : TaskStats) (t : Nat) : Option TaskStats := do
  let ps ← ts.poll_stats.update_on_span_exit t
  let ts1 := { ts with poll_stats := ps }
  let slp ← ts1.poll_stats.since_last_poll t
  match slp with
  | some d =>
    pure { ts1 with poll_times_histogram := ts1.poll_times_histogram ++ [recordedValue d] }
  | none => pure ts1

/-- `struct Task` (static data); metadata and field tokens are opaque. -/
structure Task where
  id : Nat
  metadata : Nat
  fields : List Nat
  deriving Repr, DecidableEq

/-- `struct Resource` (static data). -/
structure Resource where
  id : Nat
  metadata : Nat
  concrete_type : String
  kind : Nat
  deriving Repr, DecidableEq

/-- `struct ResourceStats`; the attribute map (touched only by the
`StateUpdate` handler, which no claim concerns) is opaque data. -/
structure ResourceStats where
  created_at : Option Nat
  closed_at : Option Nat
  attributes : List (Nat × Nat)
  deriving Repr, DecidableEq

/-- `Default` for `ResourceStats`. -/
def ResourceStats.default : ResourceStats :=
  { created_at := none, closed_at := none, attributes := [] }

/-- `struct AsyncOp` (static data). -/
structure AsyncOp where
  id : Nat
  metadata : Nat
  source : String
  deriving Repr, DecidableEq

/-- `struct AsyncOpStats`. -/
structure AsyncOpStats where
  created_at : Option Nat
  closed_at : Option Nat
  resource_id : Option Nat
  task_id : Option Nat
  poll_stats : PollStats
  deriving Repr, DecidableEq

/-- `Default` for `AsyncOpStats`. -/
def AsyncOpStats.default : AsyncOpStats :=
  { created_at := none, closed_at := none, resource_id := none, task_id := none
    poll_stats := PollStats.default }

/-- `enum Readiness` of a `PollOp` event. -/
inductive Readiness where
  | Pending
  | Ready
  deriving Repr, DecidableEq

/-- `proto::resources::PollOp` as stored in `all_poll_ops` / `new_poll_ops`. -/
structure PollOp where
  metadata : Nat
  resource_id : Nat
  name : String
  task_id : Nat
  async_op_id : Nat
  readiness : Readiness
  deriving Repr, DecidableEq

/-- `struct IdData<T>`: a map from span id to `(T, dirty)`, embedded as an
association list. -/
structure IdData (T : Type) where
  data : List (Nat × T × Bool)
  deriving Repr, DecidableEq

/-- The empty `IdData` (`impl Default for IdData<T>`). -/
def IdData.default {T : Type} : IdData T := ⟨[]⟩

/-- `HashMap::contains_key`. -/
def IdData.contains {T : Type} (m : IdData T) (id : Nat) : Bool :=
  m.data.any (fun e => e.1 == id)

/-- `HashMap::get` projected to the value (`IdData::get`). -/
def IdData.get {T : Type} (m : IdData T) (id : Nat) : Option T :=
  (m.data.find? (fun e => e.1 == id)).map (fun e => e.2.1)

/-- `IdData::insert`: `self.data.insert(id, (data, true))` — replace an
existing entry or add a new one, dirty. -/
def IdData.insert {T : Type} (m : IdData T) (id : Nat) (v : T) : IdData T :=
  if m.contains id then
    ⟨m.data.map (fun e => if e.1 = id then (id, v, true) else e)⟩
  else
    ⟨m.data ++ [(id, v, true)]⟩

/-- The pattern `if let Some(mut x) = self.table.update(&id) { x = f(x) }`:
mutate the entry through an `Updating` handle whose `Drop` sets the dirty
bit.  Absent ids are untouched. -/
def IdData.updateWith {T : Type} (m : IdData T) (id : Nat) (f : T → T) : IdData T :=
  ⟨m.data.map (fun e => if e.1 = id then (e.1, f e.2.1, true) else e)⟩

/-- Fallible version of `updateWith` for closures that can panic (the
`Event::Exit` bodies): a `none` from `f` aborts the whole transition. -/
def IdData.updateWithM {T : Type} (m : IdData T) (id : Nat) (f : T → Option T) :
    Option (IdData T) :=
  (m.data.mapM (fun e =>
    if e.1 = id then (f e.2.1).map (fun v => (e.1, v, true)) else some e)).map IdData.mk

/-- `IdData::update_or_default` followed by a mutation of the handle: the
entry is created from `T::default` when absent, and the released handle
marks it dirty. -/
def IdData.updateOrDefaultWith {T : Type} (m : IdData T) (id : Nat) (dflt : T)
    (f : T → T) : IdData T :=
  if m.contains id then m.updateWith id f
  else ⟨m.data ++ [(id, f dflt, true)]⟩

/-- `IdData::since_last_update`, fully consumed as in `publish` /
`as_proto(Include::UpdatedOnly)`: the dirty entries are yielded and their
dirty bits cleared. -/
def IdData.since_last_update {T : Type} (m : IdData T) : List (Nat × T) × IdData T :=
  (m.data.filterMap (fun e => if e.2.2 then some (e.1, e.2.1) else none),
   ⟨m.data.map (fun e => (e.1, e.2.1, false))⟩)

/-- `IdData::all` projected to key/value pairs. -/
def IdData.all {T : Type} (m : IdData T) : List (Nat × T) :=
  m.data.map (fun e => (e.1, e.2.1))

/-- `IdData::drop_closed`: first retain, among the stats entries, the
non-closed ones and the closed ones for which
`(dirty && has_watchers) || closed_for > retention` is false; then retain
static entries only for ids still present in stats.  `closed_for` is
`now.duration_since(closed).unwrap_or_default()`. -/
def IdData.drop_closed {T R : Type} (self : IdData T) (stats : IdData R)
    (closedAt : R → Option Nat) (now retention : Nat) (has_watchers : Bool) :
    IdData T × IdData R :=
  let stats1 : IdData R := ⟨stats.data.filter (fun e =>
    match closedAt e.2.1 with
    | some closed =>
      let closed_for := durationSinceOrZero now closed
      let should_drop := (e.2.2 && has_watchers) || decide (closed_for > retention)
      !should_drop
    | none => true)⟩
  let self1 : IdData T := ⟨self.data.filter (fun e => stats1.contains e.1)⟩
  (self1, stats1)

/-- The events consumed by `Aggregator::update_state` (the `StateUpdate`
variant is not embedded; see the file comment). -/
inductive Event where
  | Metadata (meta : Nat)
  | Spawn (id : Nat) (metadata : Nat) (t : Nat) (fields : List Nat)
  | Enter (id : Nat) (t : Nat)
  | Exit (id : Nat) (t : Nat)
  | Close (id : Nat) (t : Nat)
  | Waker (id : Nat) (op : WakeOp) (t : Nat)
  | Resource (t : Nat) (id : Nat) (metadata : Nat) (kind : Nat) (concrete_type : String)
  | PollOp (metadata : Nat) (t : Nat) (resource_id : Nat) (op_name : String)
      (async_op_id : Nat) (task_id : Nat) (readiness : Readiness)
  | AsyncResourceOp (t : Nat) (id : Nat) (source : String) (metadata : Nat)
  deriving Repr, DecidableEq

/-- The aggregator state acted on by `update_state`, `publish` and
`cleanup_closed` (channels, watcher lists and intervals are I/O and are not
part of the embedded state; `retention` is the configured retention). -/
structure Aggregator where
  all_metadata : List Nat
  new_metadata : List Nat
  tasks : IdData Task
  task_stats : IdData TaskStats
  resources : IdData Resource
  resource_stats : IdData ResourceStats
  async_ops : IdData AsyncOp
  async_op_stats : IdData AsyncOpStats
  all_poll_ops : List PollOp
  new_poll_ops : List PollOp
  retention : Nat
  deriving Repr, DecidableEq

/-- The aggregator as built by `Aggregator::new` (all tables empty). -/
def Aggregator.new (retention : Nat) : Aggregator :=
  { all_metadata := [], new_metadata := []
    tasks := IdData.default, task_stats := IdData.default
    resources := IdData.default, resource_stats := IdData.default
    async_ops := IdData.default, async_op_stats := IdData.default
    all_poll_ops := [], new_poll_ops := [], retention := retention }

/-- The body of the `async_op_stats` closure of the `Event::PollOp` arm. -/
def asyncOpStatsOnPollOp (os : AsyncOpStats) (t resource_id task_id : Nat)
    (readiness : Readiness) : AsyncOpStats :=
  let os := { os with poll_stats := { os.poll_stats with polls := os.poll_stats.polls + 1 } }
  let os := { os with task_id := match os.task_id with | none => some task_id | s => s }
  let os := { os with resource_id := match os.resource_id with | none => some resource_id | s => s }
  if readiness = Readiness.Pending ∧ os.poll_stats.first_poll = none then
    { os with poll_stats := { os.poll_stats with first_poll := some t } }
  else os

/-- `Aggregator::update_state`: the per-event state transition.  `none`
models a panic inside a handler. -/
def Aggregator.update_state (a : Aggregator) (e : Event) : Option Aggregator :=
  match e with
  | Event.Metadata meta =>
    some { a with
      all_metadata := a.all_metadata ++ [meta]
      new_metadata := a.new_metadata ++ [meta] }
  | Event.Spawn id metadata t fields =>
    some { a with
      tasks := a.tasks.insert id { id := id, metadata := metadata, fields := fields }
      task_stats := a.task_stats.insert id { TaskStats.default with created_at := some t } }
  | Event.Enter id t =>
    some { a with
      task_stats := a.task_stats.updateWith id
        (fun ts => { ts with poll_stats := ts.poll_stats.update_on_span_enter t })
      async_op_stats := a.async_op_stats.updateWith id
        (fun os => { os with poll_stats := os.poll_stats.update_on_span_enter t }) }
  | Event.Exit id t => do
    let tstats ← a.task_stats.updateWithM id (fun ts => taskStatsOnExit ts t)
    let ostats ← a.async_op_stats.updateWithM id (fun os =>
      (os.poll_stats.update_on_span_exit t).map (fun ps => { os with poll_stats := ps }))
    pure { a with task_stats := tstats, async_op_stats := ostats }
  | Event.Close id t =>
    some { a with
      task_stats := a.task_stats.updateWith id (fun ts => { ts with closed_at := some t })
      resource_stats := a.resource_stats.updateWith id (fun rs => { rs with closed_at := some t })
      async_op_stats := a.async_op_stats.updateWith id (fun os => { os with closed_at := some t }) }
  | Event.Waker id op t =>
    some { a with
      task_stats := a.task_stats.updateWith id (fun ts => applyWakeOp ts op t) }
  | Event.Resource t id metadata kind concrete_type =>
    some { a with
      resources := a.resources.insert id
        { id := id, metadata := metadata, concrete_type := concrete_type, kind := kind }
      resource_stats := a.resource_stats.insert id
        { ResourceStats.default with created_at := some t } }
  | Event.PollOp metadata t resource_id op_name async_op_id task_id readiness =>
    let poll_op : PollOp :=
      { metadata := metadata, resource_id := resource_id, name := op_name
        task_id := task_id, async_op_id := async_op_id, readiness := readiness }
    some { a with
      async_op_stats := a.async_op_stats.updateOrDefaultWith async_op_id AsyncOpStats.default
        (fun os => asyncOpStatsOnPollOp os t resource_id task_id readiness)
      all_poll_ops := a.all_poll_ops ++ [poll_op]
      new_poll_ops := a.new_poll_ops ++ [poll_op] }
  | Event.AsyncResourceOp t id source metadata =>
    some { a with
      async_ops := a.async_ops.insert id { id := id, metadata := metadata, source := source }
      async_op_stats := a.async_op_stats.insert id
        { AsyncOpStats.default with created_at := some t } }

/-- The `InstrumentUpdate` assembled by `Aggregator::publish` (proto
conversions are the identity on the embedded data). -/
structure InstrumentUpdate where
  now : Nat
  new_metadata : Option (List Nat)
  new_tasks : List Task
  task_stats_update : List (Nat × TaskStats)
  new_resources : List Resource
  resource_stats_update : List (Nat × ResourceStats)
  new_poll_ops : List PollOp
  new_async_ops : List AsyncOp
  async_op_stats_update : List (Nat × AsyncOpStats)
  deriving Repr, DecidableEq

/-- `Aggregator::publish`: take `new_metadata` and `new_poll_ops`, drain the
dirty entries of every table, and assemble the delta `InstrumentUpdate`.
Delivery to watchers is channel I/O and outside the state. -/
def Aggregator.publish (a : Aggregator) (now : Nat) : InstrumentUpdate × Aggregator :=
  let new_metadata := if a.new_metadata.isEmpty then none else some a.new_metadata
  let new_poll_ops := a.new_poll_ops
  let (newTasks, tasks1) := a.tasks.since_last_update
  let (taskStatsUpd, taskStats1) := a.task_stats.since_last_update
  let (newResources, resources1) := a.resources.since_last_update
  let (resourceStatsUpd, resourceStats1) := a.resource_stats.since_last_update
  let (newAsyncOps, asyncOps1) := a.async_ops.since_last_update
  let (asyncStatsUpd, asyncOpStats1) := a.async_op_stats.since_last_update
  ({ now := now
     new_metadata := new_metadata
     new_tasks := newTasks.map Prod.snd
     task_stats_update := taskStatsUpd
     new_resources := newResources.map Prod.snd
     resource_stats_update := resourceStatsUpd
     new_poll_ops := new_poll_ops
     new_async_ops := newAsyncOps.map Prod.snd
     async_op_stats_update := asyncStatsUpd },
   { a with
     new_metadata := []
     new_poll_ops := []
     tasks := tasks1
     task_stats := taskStats1
     resources := resources1
     resource_stats := resourceStats1
     async_ops := asyncOps1
     async_op_stats := asyncOpStats1 })

/-- `Aggregator::cleanup_closed`: retention GC over the three entity kinds.
`now` and `has_watchers` are read from the clock and the watcher list. -/
def Aggregator.cleanup_closed (a : Aggregator) (now : Nat) (has_watchers : Bool) :
    Aggregator :=
  let (tasks1, taskStats1) :=
    a.tasks.drop_closed a.task_stats (fun s => s.closed_at) now a.retention has_watchers
  let (resources1, resourceStats1) :=
    a.resources.drop_closed a.resource_stats (fun s => s.closed_at) now a.retention has_watchers
  let (asyncOps1, asyncStats1) :=
    a.async_ops.drop_closed a.async_op_stats (fun s => s.closed_at) now a.retention has_watchers
  { a with
    tasks := tasks1
    task_stats := taskStats1
    resources := resources1
    resource_stats := resourceStats1
    async_ops := asyncOps1
    async_op_stats := asyncStats1 }

/-- `fn total_time`: `closed_at - created_at`, `None` when either endpoint is
missing or the subtraction fails (`.ok()`). -/
def total_time (created_at closed_at : Option Nat) : Option Nat := do
  let e ← closed_at
  let s ← created_at
  durationSince e s

/-- Run a list of events through `update_state` (`none` = some handler
panicked). -/
def runEvents (a : Aggregator) (es : List Event) : Option Aggregator :=
  es.foldlM Aggregator.update_state a

/-- `n` successive `update_on_span_enter` calls. -/
def enterN (s : PollStats) (ts : List Nat) : PollStats :=
  ts.foldl PollStats.update_on_span_enter s

/-- `n` successive `update_on_span_exit` calls. -/
def exitN (s : PollStats) (us : List Nat) : Option PollStats :=
  us.foldlM PollStats.update_on_span_exit s

/-- Fixture: an aggregator holding one task (id 1) whose stats entry is
closed at time 100 and still dirty (freshly inserted), with retention 1000. -/
def closedDirtyAgg : Aggregator :=
  { Aggregator.new 1000 with
    tasks := IdData.default.insert 1 { id := 1, metadata := 7, fields := [] }
    task_stats := IdData.default.insert 1 { TaskStats.default with closed_at := some 100 } }

/-- Fixture: an aggregator holding one task (id 1) whose stats entry has
`closed_at` set but is still present in `task_stats`. -/
def closedTaskAgg : Aggregator :=
  { Aggregator.new 1000 with
    task_stats := IdData.default.insert 1 { TaskStats.default with closed_at := some 10 } }

/-- Fixture: poll stats in the middle of a poll (one enter, started at 5). -/
def midPollStats : PollStats :=
  { PollStats.default with current_polls := 1, last_poll_started := some 5 }

/-- Fixture: poll stats two enters deep, the outermost started at 0. -/
def nestedPollStats : PollStats :=
  { PollStats.default with
    current_polls := 2
    polls := 1
    first_poll := some 0
    last_poll_started := some 0 }

/-- Fixture: task stats two enters deep (`nestedPollStats`). -/
def nestedTaskStats : TaskStats :=
  { TaskStats.default with poll_stats := nestedPollStats }

/-- Fixture: task stats one enter deep, the poll started at time 0. -/
def onePollTaskStats : TaskStats :=
  { TaskStats.default with poll_stats :=
    { PollStats.default with current_polls := 1, last_poll_started := some 0 } }

section Theorems

/-! ## Helper lemmas -/

theorem durationSince_of_le {later earlier : Nat} (h : earlier ≤ later) :
    durationSince later earlier = some (later - earlier) := by
  simp [durationSince, h]

theorem durationSince_of_lt {later earlier : Nat} (h : later < earlier) :
    durationSince later earlier = none := by
  simp [durationSince, Nat.not_le.mpr h]

theorem u64SubOne_zero : u64SubOne 0 = 2 ^ 64 - 1 := by
  simp [u64SubOne, U64_MAX]

theorem u64SubOne_of_pos {n : Nat} (h1 : 1 ≤ n) (h2 : n < 2 ^ 64) :
    u64SubOne n = n - 1 := by
  simp only [u64SubOne, U64_MAX]
  omega

/-! ## C3: duration arithmetic under clock skew -/

/-- Claim C3 counterexample: an outermost Exit (`current_polls = 1`) whose
timestamp 3 precedes `last_poll_started = 5` makes
`PollStats.update_on_span_exit` panic (`none`) — it does not add zero to
`busy_time` and continue, refuting the claim at this concrete input. -/
theorem c3_counterexample : midPollStats.update_on_span_exit 3 = none := by decide

/-- Claim C3 (amended): only `drop_closed` (via `unwrap_or_default`) treats a
failed `duration_since` as zero, and `total_time` yields `None`; the poll
accounting in `update_on_span_exit` / `since_last_poll` instead unwraps the
failure, so an Exit whose timestamp precedes `last_poll_started` aborts
processing (panics) rather than adding zero. -/
theorem c3_skew_zero_only_in_gc (now closed : Nat) (h : now < closed)
    (s : PollStats) (lps t : Nat) (hlps : s.last_poll_started = some lps)
    (hcp : s.current_polls = 1) (ht : t < lps) :
    durationSinceOrZero now closed = 0 ∧
    total_time (some closed) (some now) = none ∧
    s.update_on_span_exit t = none ∧
    s.since_last_poll t = none := by
  refine ⟨?_, ?_, ?_, ?_⟩
  · simp [durationSinceOrZero, durationSince_of_lt h]
  · simp [total_time, durationSince_of_lt h]
  · simp only [PollStats.update_on_span_exit, hcp, hlps]
    have h1 : u64SubOne 1 = 0 := by simp [u64SubOne, U64_MAX]
    simp [h1, durationSince_of_lt ht]
  · simp only [PollStats.since_last_poll, hlps]
    simp [durationSince_of_lt ht]

/-- Witness for `c3_skew_zero_only_in_gc` at `now = 3 < closed = 5`,
`midPollStats` (one poll in progress, started at 5) and exit timestamp 3. -/
theorem c3_skew_witness :
    durationSinceOrZero 3 5 = 0 ∧
    total_time (some 5) (some 3) = none ∧
    midPollStats.update_on_span_exit 3 = none ∧
    midPollStats.since_last_poll 3 = none :=
  c3_skew_zero_only_in_gc 3 5 (by decide) midPollStats 5 3 (by decide) (by decide)
    (by decide)

/-! ## C5: waker accounting -/

/-- Claim C5: `Wake` and `WakeByRef` each increment `wakes` and set
`last_wake`; `Wake` (by value) additionally increments `waker_drops`;
`Clone` increments `waker_clones`; `Drop` increments `waker_drops`; and the
sequence Clone, Clone, Wake, WakeByRef, Drop yields `waker_clones = +2`,
`waker_drops = +2`, `wakes = +2` over any starting stats. -/
theorem c5_waker_counters (ts : TaskStats) (t : Nat) :
    (applyWakeOp ts WakeOp.Wake t).wakes = ts.wakes + 1 ∧
    (applyWakeOp ts WakeOp.Wake t).last_wake = some t ∧
    (applyWakeOp ts WakeOp.Wake t).waker_drops = ts.waker_drops + 1 ∧
    (applyWakeOp ts WakeOp.Wake t).waker_clones = ts.waker_clones ∧
    (applyWakeOp ts WakeOp.WakeByRef t).wakes = ts.wakes + 1 ∧
    (applyWakeOp ts WakeOp.WakeByRef t).last_wake = some t ∧
    (applyWakeOp ts WakeOp.WakeByRef t).waker_drops = ts.waker_drops ∧
    (applyWakeOp ts WakeOp.Clone t).waker_clones = ts.waker_clones + 1 ∧
    (applyWakeOp ts WakeOp.Clone t).wakes = ts.wakes ∧
    (applyWakeOp ts WakeOp.Drop t).waker_drops = ts.waker_drops + 1 ∧
    (applyWakeOp ts WakeOp.Drop t).wakes = ts.wakes ∧
    ((([(WakeOp.Clone, t), (WakeOp.Clone, t), (WakeOp.Wake, t), (WakeOp.WakeByRef, t),
        (WakeOp.Drop, t)] : List (WakeOp × Nat)).foldl
          (fun s p => applyWakeOp s p.1 p.2) ts).waker_clones = ts.waker_clones + 2 ∧
      (([(WakeOp.Clone, t), (WakeOp.Clone, t), (WakeOp.Wake, t), (WakeOp.WakeByRef, t),
        (WakeOp.Drop, t)] : List (WakeOp × Nat)).foldl
          (fun s p => applyWakeOp s p.1 p.2) ts).waker_drops = ts.waker_drops + 2 ∧
      (([(WakeOp.Clone, t), (WakeOp.Clone, t), (WakeOp.Wake, t), (WakeOp.WakeByRef, t),
        (WakeOp.Drop, t)] : List (WakeOp × Nat)).foldl
          (fun s p => applyWakeOp s p.1 p.2) ts).wakes = ts.wakes + 2) := by
  simp [applyWakeOp]

/-! ## C10: the unchecked decrement in `update_on_span_exit` -/

/-- Claim C10: `update_on_span_exit` decrements `current_polls` with an
unchecked u64 subtraction before the zero test: with `current_polls ≥ 1`
(every Exit matched by a prior Enter) the counter is properly decremented by
one, while an Exit arriving with `current_polls = 0` underflows, leaving the
counter at `u64::MAX`. -/
theorem c10_unchecked_decrement (s : PollStats) (t : Nat) :
    (s.current_polls = 0 →
      s.update_on_span_exit t = some { s with current_polls := 2 ^ 64 - 1 }) ∧
    (1 ≤ s.current_polls → s.current_polls < 2 ^ 64 →
      ∀ s1, s.update_on_span_exit t = some s1 →
        s1.current_polls = s.current_polls - 1) := by
  constructor
  · intro h0
    simp only [PollStats.update_on_span_exit, h0, u64SubOne_zero]
    have : ¬(2 ^ 64 - 1 = 0) := by decide
    simp [this]
  · intro h1 h2 s1 hs1
    simp only [PollStats.update_on_span_exit, u64SubOne_of_pos h1 h2] at hs1
    split at hs1
    · split at hs1
      · split at hs1
        · cases hs1
          simp_all
        · cases hs1
      · cases hs1
        simp_all
    · cases hs1
      simp_all

/-- Witness for `c10_unchecked_decrement`: exiting `midPollStats`
(`current_polls = 1`, started at 5) at time 9 yields `current_polls = 0`,
and exiting default stats (`current_polls = 0`) underflows to `u64::MAX`. -/
theorem c10_witness :
    PollStats.default.update_on_span_exit 9
        = some { PollStats.default with current_polls := 2 ^ 64 - 1 } ∧
    ({ PollStats.default with
        current_polls := 0
        last_poll_started := some 5
        last_poll_ended := some 9
        busy_time := 4 } : PollStats).current_polls = midPollStats.current_polls - 1 :=
  ⟨(c10_unchecked_decrement PollStats.default 9).1 rfl,
   (c10_unchecked_decrement midPollStats 9).2 (by decide) (by decide) _ (by decide)⟩

/-! ## C6: n enters followed by n exits -/

theorem u64SubOne_one : u64SubOne 1 = 0 := by
  simp [u64SubOne, U64_MAX]

theorem enterN_of_pos (ts : List Nat) (s : PollStats) (h : 1 ≤ s.current_polls) :
    enterN s ts = { s with current_polls := s.current_polls + ts.length } := by
  induction ts generalizing s with
  | nil => simp [enterN]
  | cons t rest ih =>
    have hne : ¬ s.current_polls = 0 := by omega
    have step : s.update_on_span_enter t = { s with current_polls := s.current_polls + 1 } := by
      simp [PollStats.update_on_span_enter, hne]
    rw [enterN, List.foldl_cons, step, ← enterN, ih _ (by simp)]
    simp only [PollStats.mk.injEq, List.length_cons, and_true, true_and]
    omega

theorem exitN_inner (us : List Nat) (s : PollStats)
    (hlen : us.length < s.current_polls) (hbound : s.current_polls < 2 ^ 64) :
    exitN s us = some { s with current_polls := s.current_polls - us.length } := by
  induction us generalizing s with
  | nil => simp [exitN]
  | cons u rest ih =>
    have hlen1 : rest.length + 2 ≤ s.current_polls := by
      simpa using hlen
    have h1 : 1 ≤ s.current_polls := by omega
    have hsub : u64SubOne s.current_polls = s.current_polls - 1 :=
      u64SubOne_of_pos h1 hbound
    have hne : ¬ (s.current_polls - 1 = 0) := by omega
    have step : s.update_on_span_exit u = some { s with current_polls := s.current_polls - 1 } := by
      simp [PollStats.update_on_span_exit, hsub, hne]
    have ihres2 : List.foldlM PollStats.update_on_span_exit
        ({ s with current_polls := s.current_polls - 1 } : PollStats) rest
        = some { s with current_polls := s.current_polls - 1 - rest.length } :=
      ih { s with current_polls := s.current_polls - 1 }
        (by simp; omega) (by simp; omega)
    rw [exitN, List.foldlM_cons, step]
    simp only [Option.bind_eq_bind, Option.some_bind]
    rw [ihres2]
    simp only [Option.some.injEq, PollStats.mk.injEq, List.length_cons, and_true, true_and]
    omega

theorem exitN_append (s : PollStats) (l1 l2 : List Nat) :
    exitN s (l1 ++ l2) = (exitN s l1).bind (fun x => exitN x l2) := by
  rw [exitN, List.foldlM_append]
  simp only [Option.bind_eq_bind]
  rfl

theorem exitN_singleton (s : PollStats) (u : Nat) :
    exitN s [u] = s.update_on_span_exit u := by
  rw [exitN, List.foldlM_cons]
  cases s.update_on_span_exit u with
  | none => rfl
  | some x => rfl

/-- Claim C6: starting from `current_polls = 0`, `1 + ts.length` enters (the
first at time `t`) followed by the same number of exits (the last at time
`u ≥ t`) end with `current_polls = 0` and `polls` incremented by exactly 1;
`busy_time` is untouched by all inner exits and accrues `u - t` on the
outermost exit only. -/
theorem c6_reentrancy (s : PollStats) (hcp : s.current_polls = 0)
    (t u : Nat) (ts us : List Nat)
    (hlen : us.length = ts.length) (hbound : ts.length + 1 < 2 ^ 64) (hle : t ≤ u) :
    ∃ smid s1,
      exitN (enterN s (t :: ts)) us = some smid ∧
      smid.current_polls = 1 ∧
      smid.busy_time = s.busy_time ∧
      smid.polls = s.polls + 1 ∧
      exitN (enterN s (t :: ts)) (us ++ [u]) = some s1 ∧
      s1.current_polls = 0 ∧
      s1.polls = s.polls + 1 ∧
      s1.busy_time = s.busy_time + (u - t) := by
  have first : s.update_on_span_enter t =
      { s with
        current_polls := 1
        polls := s.polls + 1
        last_poll_started := some t
        first_poll := if s.first_poll = none then some t else s.first_poll } := by
    simp [PollStats.update_on_span_enter, hcp]
  have henter : enterN s (t :: ts) =
      { s with
        current_polls := 1 + ts.length
        polls := s.polls + 1
        last_poll_started := some t
        first_poll := if s.first_poll = none then some t else s.first_poll } := by
    rw [enterN, List.foldl_cons, first, ← enterN, enterN_of_pos _ _ (by simp)]
  have hmid : exitN (enterN s (t :: ts)) us =
      some { s with
        current_polls := 1
        polls := s.polls + 1
        last_poll_started := some t
        first_poll := if s.first_poll = none then some t else s.first_poll } := by
    rw [henter, exitN_inner us _ (by show us.length < 1 + ts.length; omega)
      (by show 1 + ts.length < 2 ^ 64; omega)]
    simp only [Option.some.injEq, PollStats.mk.injEq, and_true, true_and]
    omega
  have hfin : PollStats.update_on_span_exit
      { s with
        current_polls := 1
        polls := s.polls + 1
        last_poll_started := some t
        first_poll := if s.first_poll = none then some t else s.first_poll } u =
      some { s with
        current_polls := 0
        polls := s.polls + 1
        last_poll_started := some t
        first_poll := if s.first_poll = none then some t else s.first_poll
        last_poll_ended := some u
        busy_time := s.busy_time + (u - t) } := by
    simp [PollStats.update_on_span_exit, u64SubOne_one, durationSince_of_le hle]
  refine ⟨_, { s with
      current_polls := 0
      polls := s.polls + 1
      last_poll_started := some t
      first_poll := if s.first_poll = none then some t else s.first_poll
      last_poll_ended := some u
      busy_time := s.busy_time + (u - t) }, hmid, rfl, rfl, rfl, ?_, rfl, rfl, rfl⟩
  rw [exitN_append, hmid, Option.some_bind, exitN_singleton, hfin]

/-- Witness for `c6_reentrancy`: three enters at 0, 1, 2 and three exits at
3, 4, 10 from the default stats. -/
theorem c6_witness :
    ∃ smid s1,
      exitN (enterN PollStats.default (0 :: [1, 2])) [3, 4] = some smid ∧
      smid.current_polls = 1 ∧
      smid.busy_time = PollStats.default.busy_time ∧
      smid.polls = PollStats.default.polls + 1 ∧
      exitN (enterN PollStats.default (0 :: [1, 2])) ([3, 4] ++ [10]) = some s1 ∧
      s1.current_polls = 0 ∧
      s1.polls = PollStats.default.polls + 1 ∧
      s1.busy_time = PollStats.default.busy_time + (10 - 0) :=
  c6_reentrancy PollStats.default rfl 0 10 [1, 2] [3, 4] rfl (by decide) (by decide)

/-! ## C2 and C9: what an Exit records into the histogram -/

theorem taskStatsOnExit_of_update (ts : TaskStats) (t : Nat) (ps : PollStats) (d : Nat)
    (h1 : ts.poll_stats.update_on_span_exit t = some ps)
    (h2 : ps.since_last_poll t = some (some d)) :
    taskStatsOnExit ts t = some
      { ts with
        poll_stats := ps
        poll_times_histogram := ts.poll_times_histogram ++ [recordedValue d] } := by
  simp [taskStatsOnExit, h1, h2]

theorem taskStatsOnExit_eq (ts : TaskStats) (t lps : Nat)
    (hlps : ts.poll_stats.last_poll_started = some lps) (hle : lps ≤ t) :
    ∃ ps, ts.poll_stats.update_on_span_exit t = some ps ∧
      ps.last_poll_started = some lps ∧
      taskStatsOnExit ts t = some
        { ts with
          poll_stats := ps
          poll_times_histogram := ts.poll_times_histogram ++ [recordedValue (t - lps)] } := by
  have hupd : ∃ ps, ts.poll_stats.update_on_span_exit t = some ps ∧
      ps.last_poll_started = some lps := by
    by_cases hcp : u64SubOne ts.poll_stats.current_polls = 0
    · refine ⟨{ ts.poll_stats with
          current_polls := u64SubOne ts.poll_stats.current_polls
          last_poll_ended := some t
          busy_time := ts.poll_stats.busy_time + (t - lps) }, ?_, by simp [hlps]⟩
      simp [PollStats.update_on_span_exit, hcp, hlps, durationSince_of_le hle]
    · refine ⟨{ ts.poll_stats with
          current_polls := u64SubOne ts.poll_stats.current_polls }, ?_, by simp [hlps]⟩
      simp [PollStats.update_on_span_exit, hcp]
  obtain ⟨ps, h1, h2⟩ := hupd
  refine ⟨ps, h1, h2, taskStatsOnExit_of_update ts t ps (t - lps) h1 ?_⟩
  simp [PollStats.since_last_poll, h2, durationSince_of_le hle]

/-- Claim C2 counterexample: on task 1, after Enter(0), Enter(1), the inner
Exit at time 2 leaves `current_polls = 1` (it is not the outermost exit) and
nevertheless records a histogram sample (2 ns), where the claim requires no
sample to be recorded. -/
theorem c2_counterexample :
    (runEvents (Aggregator.new 1000)
        [Event.Spawn 1 7 0 [], Event.Enter 1 0, Event.Enter 1 1, Event.Exit 1 2]).map
        (fun a => (a.task_stats.get 1).map
          (fun ts => (ts.poll_stats.current_polls, ts.poll_times_histogram)))
      = some (some (1, [2])) := by decide

/-- Claim C2 (amended): an Exit on a task records a poll-time histogram
sample whenever `last_poll_started` is set — that is, on every exit following
the first enter, nested or not — with value the saturated elapsed time since
`last_poll_started`; the recording is not restricted to the outermost exit.
In the nested sequence Enter(T), Enter(T+1), Exit(T+2), Exit(T+5) the inner
Exit at T+2 therefore records a 2 ns sample. -/
theorem c2_exit_always_records (ts : TaskStats) (t lps : Nat)
    (hlps : ts.poll_stats.last_poll_started = some lps) (hle : lps ≤ t) :
    ∃ ts1, taskStatsOnExit ts t = some ts1 ∧
      ts1.poll_times_histogram = ts.poll_times_histogram ++ [recordedValue (t - lps)] := by
  obtain ⟨ps, h1, h2, h3⟩ := taskStatsOnExit_eq ts t lps hlps hle
  exact ⟨_, h3, rfl⟩

/-- Witness for `c2_exit_always_records`: an inner exit at time 2 on a task
two polls deep whose outermost poll started at 0. -/
theorem c2_witness :
    ∃ ts1, taskStatsOnExit nestedTaskStats 2 = some ts1 ∧
      ts1.poll_times_histogram
        = nestedTaskStats.poll_times_histogram ++ [recordedValue (2 - 0)] :=
  c2_exit_always_records nestedTaskStats 2 0 rfl (by decide)

/-- Claim C9: the value recorded into a task's poll-time histogram is the
elapsed time since `last_poll_started` in nanoseconds, converted to u64 with
saturation: durations up to `u64::MAX` ns are recorded exactly, and any
larger duration is recorded as exactly `u64::MAX`. -/
theorem c9_histogram_saturation (ts : TaskStats) (t lps : Nat)
    (hlps : ts.poll_stats.last_poll_started = some lps) (hle : lps ≤ t) :
    (∃ ts1, taskStatsOnExit ts t = some ts1 ∧
      ts1.poll_times_histogram.getLast? = some (recordedValue (t - lps))) ∧
    (t - lps ≤ U64_MAX → recordedValue (t - lps) = t - lps) ∧
    (U64_MAX < t - lps → recordedValue (t - lps) = U64_MAX) ∧
    recordedValue (t - lps) ≤ U64_MAX := by
  obtain ⟨ps, h1, h2, h3⟩ := taskStatsOnExit_eq ts t lps hlps hle
  refine ⟨⟨_, h3, by simp⟩, fun h => by simp [recordedValue, h],
    fun h => by simp [recordedValue, Nat.not_le.mpr h], ?_⟩
  unfold recordedValue
  split
  · assumption
  · exact Nat.le_refl _

/-- Witness for `c9_histogram_saturation`: an exit at time `2^64` of a poll
started at 0, a duration one beyond `u64::MAX`, recorded as `u64::MAX`. -/
theorem c9_witness :
    (∃ ts1, taskStatsOnExit onePollTaskStats (2 ^ 64) = some ts1 ∧
      ts1.poll_times_histogram.getLast? = some (recordedValue (2 ^ 64 - 0))) ∧
    (2 ^ 64 - 0 ≤ U64_MAX → recordedValue (2 ^ 64 - 0) = 2 ^ 64 - 0) ∧
    (U64_MAX < 2 ^ 64 - 0 → recordedValue (2 ^ 64 - 0) = U64_MAX) ∧
    recordedValue (2 ^ 64 - 0) ≤ U64_MAX :=
  c9_histogram_saturation onePollTaskStats (2 ^ 64) 0 rfl (by decide)

/-! ## C4: Waker events and closed tasks -/

theorem updateWith_of_not_contains {T : Type} (m : IdData T) (id : Nat) (f : T → T)
    (h : m.contains id = false) : m.updateWith id f = m := by
  unfold IdData.updateWith
  unfold IdData.contains at h
  cases m with
  | mk l =>
    simp only [IdData.mk.injEq]
    induction l with
    | nil => rfl
    | cons e rest ih =>
      simp only [List.any_cons, Bool.or_eq_false_iff] at h
      have he : ¬ (e.1 = id) := by simpa using h.1
      simp only [List.map_cons, if_neg he]
      rw [ih h.2]

/-- Claim C4 counterexample: task 1 is present in `task_stats` with
`closed_at = 10` already set and `waker_clones = 0`; processing a Waker Clone
event at time 20 nevertheless increments `waker_clones` to 1, refuting the
claim that Waker events for closed tasks leave the counters unchanged. -/
theorem c4_counterexample :
    ((closedTaskAgg.task_stats.get 1).map (fun ts => (ts.closed_at, ts.waker_clones))
        = some (some 10, 0)) ∧
    ((closedTaskAgg.update_state (Event.Waker 1 WakeOp.Clone 20)).map
        (fun a => (a.task_stats.get 1).map (fun ts => ts.waker_clones))
        = some (some 1)) := by decide

/-- Claim C4 (amended): a Waker event is dropped silently exactly when its
task id is absent from `task_stats` (no entry is created and the state is
unchanged); for a task still present in the table the waker counters are
updated normally even when `closed_at` is already set. -/
theorem c4_waker_dropped_only_if_absent (a : Aggregator) (id : Nat) (op : WakeOp)
    (t : Nat) (h : a.task_stats.contains id = false) :
    a.update_state (Event.Waker id op t) = some a := by
  show some { a with
    task_stats := a.task_stats.updateWith id (fun ts => applyWakeOp ts op t) } = some a
  rw [updateWith_of_not_contains _ _ _ h]

/-- Witness for `c4_waker_dropped_only_if_absent`: a Waker Clone event for
the unknown task id 1 leaves the fresh aggregator unchanged. -/
theorem c4_witness :
    (Aggregator.new 5).update_state (Event.Waker 1 WakeOp.Clone 20)
      = some (Aggregator.new 5) :=
  c4_waker_dropped_only_if_absent (Aggregator.new 5) 1 WakeOp.Clone 20 rfl

/-! ## C8: the dirty-bit protocol of IdData -/

theorem filterMap_dirty {T : Type} (l : List (Nat × T × Bool)) :
    l.filterMap (fun e => if e.2.2 then some (e.1, e.2.1) else none)
      = (l.filter (fun e => e.2.2)).map (fun e => (e.1, e.2.1)) := by
  induction l with
  | nil => rfl
  | cons e rest ih =>
    cases hd : e.2.2 <;>
      simp [List.filterMap_cons, List.filter_cons, hd, ih]

theorem since_last_update_cleared {T : Type} (l : List (Nat × T × Bool)) :
    (l.map (fun e => (e.1, e.2.1, false))).filterMap
      (fun e => if e.2.2 then some (e.1, e.2.1) else none) = [] := by
  induction l with
  | nil => rfl
  | cons e rest ih => simp [ih]

/-- Claim C8: `since_last_update` yields exactly the entries whose dirty flag
is true (with their values) and clears every dirty flag, so a second call
with no intervening write yields nothing; `insert` and the release of an
updating handle (`updateWith`) write the entry with dirty = true, restarting
the cycle. -/
theorem c8_dirty_bit_protocol {T : Type} (m : IdData T) (id : Nat) (v : T) (f : T → T) :
    (m.since_last_update.1
        = (m.data.filter (fun e => e.2.2)).map (fun e => (e.1, e.2.1))) ∧
    (m.since_last_update.2.since_last_update.1 = []) ∧
    (∀ id1 v1 d1, (id1, v1, d1) ∈ (m.insert id v).data → id1 = id → d1 = true) ∧
    (∀ id1 v1 d1, (id1, v1, d1) ∈ (m.updateWith id f).data → id1 = id → d1 = true) := by
  refine ⟨filterMap_dirty m.data, since_last_update_cleared m.data, ?_, ?_⟩
  · intro id1 v1 d1 hmem heq
    unfold IdData.insert at hmem
    by_cases hc : m.contains id
    · rw [if_pos hc] at hmem
      obtain ⟨e, he, hee⟩ := List.mem_map.mp hmem
      by_cases h2 : e.1 = id
      · rw [if_pos h2] at hee
        cases hee
        rfl
      · rw [if_neg h2] at hee
        cases hee
        exact absurd heq h2
    · rw [if_neg hc] at hmem
      rcases List.mem_append.mp hmem with hmem1 | hmem1
      · exfalso
        have hc1 : m.contains id = false := by simpa using hc
        have hc2 : m.data.any (fun e => e.1 == id) = false := hc1
        have hall := List.any_eq_false.mp hc2
        have hfalse := hall _ hmem1
        simp [heq] at hfalse
      · rw [List.mem_singleton] at hmem1
        cases hmem1
        rfl
  · intro id1 v1 d1 hmem heq
    unfold IdData.updateWith at hmem
    obtain ⟨e, he, hee⟩ := List.mem_map.mp hmem
    by_cases h2 : e.1 = id
    · rw [if_pos h2] at hee
      cases hee
      rfl
    · rw [if_neg h2] at hee
      cases hee
      exact absurd heq h2

/-- Witness for `c8_dirty_bit_protocol`: releasing an updating handle over
the clean entry (3, 7, false) leaves it dirty. -/
theorem c8_witness :
    ((3, (7 : Nat), true) ∈ ((IdData.mk [(3, (7 : Nat), false)]).updateWith 3
        (fun v => v)).data) ∧ true = true :=
  ⟨by decide,
   (c8_dirty_bit_protocol (IdData.mk [(3, (7 : Nat), false)]) 3 7 (fun v => v)).2.2.2
     3 7 true (by decide) rfl⟩

/-! ## C7: publishing twice with no intervening events -/

/-- Claim C7: for every aggregator state, a second `publish` immediately
after a first one (no events in between) produces an `InstrumentUpdate` with
empty `new_tasks`, `new_resources` and `new_async_ops`, all three stats
update maps empty, empty `new_poll_ops`, and `new_metadata = None`. -/
theorem c7_publish_twice_empty (a : Aggregator) (now1 now2 : Nat) :
    (((a.publish now1).2.publish now2).1.new_tasks = []) ∧
    (((a.publish now1).2.publish now2).1.task_stats_update = []) ∧
    (((a.publish now1).2.publish now2).1.new_resources = []) ∧
    (((a.publish now1).2.publish now2).1.resource_stats_update = []) ∧
    (((a.publish now1).2.publish now2).1.new_async_ops = []) ∧
    (((a.publish now1).2.publish now2).1.async_op_stats_update = []) ∧
    (((a.publish now1).2.publish now2).1.new_poll_ops = []) ∧
    (((a.publish now1).2.publish now2).1.new_metadata = none) := by
  simp [Aggregator.publish, IdData.since_last_update, since_last_update_cleared]

/-! ## C1: retention GC of closed entities -/

/-- Claim C1 (code bug): `closedDirtyAgg` holds task 1, closed at 100 and
still dirty; at `now = 150` (50 within the retention of 1000) with a watcher
attached, `cleanup_closed` drops the task from both the stats and the static
table — exactly the entry the claim (and the comment inside
`IdData::drop_closed`) requires it to retain.  Without watchers the same
entry is retained until retention expires, after which it is dropped from
both tables. -/
theorem c1_drop_closed_bug :
    ((closedDirtyAgg.task_stats.get 1).map (fun ts => ts.closed_at)
        = some (some 100)) ∧
    (closedDirtyAgg.task_stats.data.map (fun e => (e.1, e.2.2)) = [(1, true)]) ∧
    ((closedDirtyAgg.cleanup_closed 150 true).task_stats.contains 1 = false) ∧
    ((closedDirtyAgg.cleanup_closed 150 true).tasks.contains 1 = false) ∧
    ((closedDirtyAgg.cleanup_closed 150 false).task_stats.contains 1 = true) ∧
    ((closedDirtyAgg.cleanup_closed 150 false).tasks.contains 1 = true) ∧
    ((closedDirtyAgg.cleanup_closed 2000 false).task_stats.contains 1 = false) ∧
    ((closedDirtyAgg.cleanup_closed 2000 false).tasks.contains 1 = false) := by
  decide

end Theorems

end ConsoleSubscriber
